import Mathlib

/-!
Shallow embedding of the classroom notification and Q&A bot, from
`src/main.py` and `src/main-adk-inmemoryserssionservice.py`.

External effects (Google Sheets fetches, the Gemini LLM call, WhatsApp
send/reply) are modelled as explicit parameters: a fetch is an
`Except String` value (an exception or the fetched rows), the LLM call is
an oracle function, and a send outcome is an oracle `Bool` (the code
catches per-send exceptions, so only success/failure is observable).
Spreadsheet cell values read through `row.get(...)` are modelled as
`Option String` (`none` = Python `None`, i.e. a missing column);
`str(...)` of such a value is `pyStr`.
-/

namespace AIAssistant

/-- Python `str()` applied to a cell value obtained via `row.get(...)`:
a present string is itself, `None` prints as `"None"`. -/
def pyStr : Option String → String
  | some s => s
  | none   => "None"

/-- Python `.strip()` on the message body: leading and trailing whitespace
removed (whitespace modelled as `Char.isWhitespace`). -/
def pyStrip (s : String) : String :=
  ⟨((s.data.dropWhile Char.isWhitespace).reverse.dropWhile Char.isWhitespace).reverse⟩

/-- Python `str.lstrip("+")`: remove ALL leading `'+'` characters
(`src/main.py` line 136, `src/main-adk-inmemoryserssionservice.py` line 135). -/
def normalizePhone (s : String) : String := ⟨s.data.dropWhile (· == '+')⟩

/-- One row of the "Course Plan" sheet as returned by `get_all_records()`;
fields are the cells read via `row.get(...)`. -/
structure CourseRow where
  scheduleDate : Option String
  topic : Option String
  className : Option String
  teacher : Option String
  subject : Option String
  deriving Repr, DecidableEq

/-- The dict built by `today_topic` from a matching row:
`{"topic": row.get("Topic"), "class": ..., "teacher": ..., "subject": ...}`. -/
structure LessonInfo where
  topic : Option String
  className : Option String
  teacher : Option String
  subject : Option String
  deriving Repr, DecidableEq

def rowInfo (r : CourseRow) : LessonInfo :=
  { topic := r.topic, className := r.className, teacher := r.teacher, subject := r.subject }

/-- The row scan of `today_topic` (`src/main.py` lines 119-127): return the
dict for the first row with `str(row.get("Schedule Date")) == today`, else `None`. -/
def findLesson (rows : List CourseRow) (today : String) : Option LessonInfo :=
  match rows with
  | [] => none
  | r :: rs => if pyStr r.scheduleDate == today then some (rowInfo r) else findLesson rs today

/-- `today_topic(gc)` (`src/main.py` lines 113-127): the sheet fetch may raise
(auth error, missing sheet); the function itself has no try/except, so a fetch
exception propagates; otherwise the scan result is returned. -/
def today_topic (fetch : Except String (List CourseRow)) (today : String) :
    Except String (Option LessonInfo) :=
  fetch.map (fun rows => findLesson rows today)

/-- One row of the "Student" sheet; `studentName` is `r["Student Name"]`,
`whatsappNumber` is `str(r["Whatsapp Number"])` before normalization, and
`className` is `r["Class"]`. -/
structure StudentRow where
  studentName : String
  whatsappNumber : String
  className : String
  deriving Repr, DecidableEq

/-- The dict `{name, phone}` built per student by `students_for_class`. -/
structure Student where
  name : String
  phone : String
  deriving Repr, DecidableEq

/-- Python `==` between a sheet cell (a string) and the lesson's class value
(which may be `None`): `"x" == None` is `False` in Python. -/
def pyEqOpt (cell : String) (v : Option String) : Bool :=
  match v with
  | some s => cell == s
  | none => false

/-- `students_for_class(gc, class_name)` (`src/main.py` lines 129-140): keep
rows whose `Class` cell equals `class_name`, and store the phone with leading
`'+'` stripped. -/
def students_for_class (rows : List StudentRow) (class_name : Option String) : List Student :=
  (rows.filter (fun r => pyEqOpt r.className class_name)).map
    (fun r => { name := r.studentName, phone := normalizePhone r.whatsappNumber })

/-- A piece of a Python format template: literal text or a `{NAME}` placeholder. -/
inductive Seg where
  | lit (s : String)
  | var (v : String)
  deriving Repr, DecidableEq

/-- Python `str.format(**kwargs)` semantics over a template split into segments:
each placeholder is replaced by `str()` of the passed keyword value; a
placeholder whose keyword was not passed raises `KeyError`. -/
def pyFormat : List Seg → (String → Option String) → Except String String
  | [], _ => .ok ""
  | .lit s :: rest, f => (pyFormat rest f).map (fun t => s ++ t)
  | .var v :: rest, f =>
      match f v with
      | none => .error ("KeyError: " ++ v)
      | some s => (pyFormat rest f).map (fun t => s ++ t)

/-- Total substitution (every placeholder has a value): the result of a
`format` call in which all referenced keywords were passed. -/
def substSegs : List Seg → (String → String) → String
  | [], _ => ""
  | .lit s :: rest, g => s ++ substSegs rest g
  | .var v :: rest, g => g v ++ substSegs rest g

/-- The placeholder names of a template, in occurrence order. -/
def segVars : List Seg → List String
  | [] => []
  | .lit _ :: rest => segVars rest
  | .var v :: rest => v :: segVars rest

/-- First occurrences of a list's elements, in order. -/
def firstOccurrences : List String → List String
  | [] => []
  | x :: rest => x :: (firstOccurrences rest).filter (fun y => y ≠ x)

/-- The four keyword fields passed by `new_chat` / the ADK module-level format
call: `TOPIC`, `SUBJECT`, `TEACHER`, `CLASS`, each `str()`-converted on
substitution. Any other placeholder name is unbound. -/
def mkFields (topic subject teacher clas : Option String) : String → Option String :=
  fun k =>
    if k == "TOPIC" then some (pyStr topic)
    else if k == "SUBJECT" then some (pyStr subject)
    else if k == "TEACHER" then some (pyStr teacher)
    else if k == "CLASS" then some (pyStr clas)
    else none

/-- The `SYSTEM_PROMPT` template of `src/main.py` (lines 35-95), after
`textwrap.dedent` and `.strip()`, split at its placeholders. -/
def SYSTEM_PROMPT_segs : List Seg := [
  .lit "You are a school *",
  .var "SUBJECT",
  .lit "* educator for a classroom. Design an Universal design \nlearning topic recap for class *",
  .var "CLASS",
  .lit "* student explaining the *",
  .var "TOPIC",
  .lit "*\nwhich has been taught by *",
  .var "TEACHER",
  .lit "* in the class. Tailer the lession for an \ninquiry based science class and include an engaging real world analogy. \nYou can make the learning visual wherever relevant to explain the topic. \nYou should ensure that you are grounded in curriculum. Answers questions *only* about today’s\nlesson topic.\n\n- Do not use Markdown formatting. Just use plain text with asterisks (e.g., *important*) for emphasis.\n- When emphasizing words, wrap them in single asterisks like *this*, not double asterisks.\n\nInstructions:\n- After your first explanation, send a follow-up message asking the student if they would like examples or have any doubts.\n- Send a follow-up message to the student asking if they need a recap or have any doubts.\n- Answer questions related to today’s topic with clear, concise explanations.\n- Politely decline questions about unrelated topics.\n- If the student sends message which doesn\x27t contain any words, respond with:\n  \"Please send your question in words so I can help you better 😊\n\n\n✅ **You SHOULD:**\n- Explain key points simply using analogies and plain language.\n- Be conversational: speak directly to one student (use *you*, not *everyone*).\n- Give bullet-point recaps if asked for a summary.\n- Encourage curiosity and gently guide the student if they’re confused.\n- Stick to factual and educational content.\n- Handle messages with only emojis or no text by replying:\n  \"Please send your question in words so I can help you better 😊\"\n\n\n❌ **You SHOULD NOT:**\n- Do not answer questions unrelated to the topic. Instead reply:\n  \"This question is about a different topic. Please ask about today’s topic: ",
  .var "TOPIC",
  .lit ".\"\n- Do not use complex academic terms without explanation.\n- Do not mention AI, Gemini, or that you\x27re a language model.\n- Do not assume the student knows everything — always check if they want a simpler version.\n- Do not answer for other subjects or days.\n- Avoid giving opinions, emotional support, or life advice.\n- Do not ask for any personal information from the student.\n- Avoid sensitive topics or triggering content.\n\n\nAudience:\n- You are speaking directly to one student in a private message.\n- Be friendly, warm, and conversational — use \"you\" instead of \"everyone\".\n- Assume they are a student who may need simplified explanations.\n\nToday’s topic is: *",
  .var "TOPIC",
  .lit "*\nOnly answer questions about today’s topic.\n\nIf a question is off-topic, reply with:\n\"This question is about a different topic. Please ask about today’s topic: ",
  .var "TOPIC",
  .lit ".\"\n\n\nIf a student asks for a recap, reply with a bullet-point summary of key concepts, using asterisks (not bold) for emphasis.\n\nAt the end of every response, show:\n📚 *",
  .var "TOPIC",
  .lit "*  \n📘 *",
  .var "SUBJECT",
  .lit "*"
]

/-- The `SYSTEM_PROMPT_TMPL` template of
`src/main-adk-inmemoryserssionservice.py` (lines 38-104), after
`textwrap.dedent` and `.strip()`, split at its placeholders. -/
def SYSTEM_PROMPT_TMPL_segs : List Seg := [
  .lit "You are a school *",
  .var "SUBJECT",
  .lit "* educator for a classroom. Design an Universal design \nlearning topic recap for class *",
  .var "CLASS",
  .lit "* student explaining the *",
  .var "TOPIC",
  .lit "*\nwhich has been taught by *",
  .var "TEACHER",
  .lit "* in the class. Tailer the lession for an \ninquiry based science class and include an engaging real world analogy. \nYou can make the learning visual wherever relevant to explain the topic. \nYou should ensure that you are grounded in curriculum. Answers questions *only* about today’s\nlesson topic.\n\n- Do not use Markdown formatting. Just use plain text with asterisks (e.g., *important*) for emphasis.\n- When emphasizing words, wrap them in single asterisks like *this*, not double asterisks.\n\nInstructions:\n- When asking for recap then only send explanation of the full topic, with now example.\n- After your first explanation, send a follow-up message asking the student if they would like examples or have any doubts.\n- Send a follow-up message to the student asking if they need a recap or have any doubts.\n- Answer questions related to today’s topic with clear, concise explanations.\n- Politely decline questions about unrelated topics.\n- If the student sends message which doesn\x27t contain any words, respond with:\n  \"Please send your question in words so I can help you better 😊\n\n\n✅ **You SHOULD:**\n- Explain key points simply using analogies and plain language.\n- Be conversational: speak directly to one student (use *you*, not *everyone*).\n- Give bullet-point recaps if asked for a summary.\n- Use simple english words to explain.\n- Encourage curiosity and gently guide the student if they’re confused.\n- Stick to factual and educational content.\n- Handle messages with only emojis or no text by replying:\n  \"Please send your question in words so I can help you better 😊\"\n\n\n❌ **You SHOULD NOT:**\n- Do not answer questions unrelated to the topic. Instead reply:\n  \"This question is about a different topic. Please ask about today’s topic: ",
  .var "TOPIC",
  .lit ".\"\n- Do not use complex academic terms without explanation.\n- Do not use complex english words.\n- Do not give example first when student want explanation, always give explanation of the first \n- Do not mention AI, Gemini, or that you\x27re a language model.\n- Do not assume the student knows everything — always check if they want a simpler version.\n- Do not answer for other subjects or days.\n- Avoid giving opinions, emotional support, or life advice.\n- Do not ask for any personal information from the student.\n- Avoid sensitive topics or triggering content.\n\n\nAudience:\n- You are speaking directly to one student in a private message.\n- Be friendly, warm, and conversational — use \"you\" instead of \"everyone\".\n- Assume they are a student who may need simplified explanations.\n\nToday’s topic is: *",
  .var "TOPIC",
  .lit "*\nOnly answer questions about today’s topic.\n\nIf a question is off-topic, reply with:\n\"This question is about a different topic. Please ask about today’s topic: ",
  .var "TOPIC",
  .lit ".\"\n\n\nIf a student asks for a recap, reply with a bullet-point summary of key concepts, using asterisks (not bold) for emphasis.\n\nAt the end of every response, show:\n📚 *",
  .var "TOPIC",
  .lit "*  \n📘 *",
  .var "SUBJECT",
  .lit "*"
]


/-- A Gemini chat session as created by `new_chat` (`src/main.py` lines
147-161): a chat handle seeded with the formatted system prompt. `chatId`
gives each created object its identity (a fresh allocation per call). -/
structure Chat where
  topic : Option String
  subject : Option String
  teacher : Option String
  className : Option String
  chatId : Nat
  deriving Repr, DecidableEq

/-- The prompt built inside `new_chat`:
`SYSTEM_PROMPT.format(TOPIC=topic, SUBJECT=subject, TEACHER=teacher, CLASS=clas)`
— all four keywords are always passed. -/
def new_chat_prompt (topic subject teacher clas : Option String) : Except String String :=
  pyFormat SYSTEM_PROMPT_segs (mkFields topic subject teacher clas)

/-- `new_chat(topic, subject, teacher, clas)`: a fresh chat object seeded with
today's fields; `chatId` is the allocation number. -/
def new_chat (topic subject teacher clas : Option String) (chatId : Nat) : Chat :=
  { topic := topic, subject := subject, teacher := teacher, className := clas, chatId := chatId }

/-- One attempted outbound send of the push loop: the recipient id, the body
passed to `client.sendText`, and whether the send succeeded (a failure is
caught by the per-student `except` and only logged). -/
structure SendRecord where
  jid : String
  body : String
  ok : Bool
  deriving Repr, DecidableEq

/-- The f-string body of `src/main.py` lines 188-194 for one student. -/
def pushBodyMain (name : String) (clas teacher topic : Option String) : String :=
  "👋 Hello " ++ name ++ ",\n\nToday in class *" ++ pyStr clas ++ "* with " ++ pyStr teacher ++
    ", in mathematics we covered:\n📚 *" ++ pyStr topic ++
    "*\n\nNeed a recap or have doubts?\nJust reply here!"

/-- One iteration of the `main.py` push loop (lines 186-199) for one student:
`jid = f"91{stu['phone']}"`, the f-string body, and one guarded
`client.sendText(jid, body)`. -/
def mkSendMain (info : LessonInfo) (sendOk : String → String → Bool) (stu : Student) :
    SendRecord :=
  { jid := "91" ++ stu.phone,
    body := pushBodyMain stu.name info.className info.teacher info.topic,
    ok := sendOk ("91" ++ stu.phone)
      (pushBodyMain stu.name info.className info.teacher info.topic) }

/-- `push_daily_summary` of `src/main.py` (lines 176-199): fetch the course
sheet (exception propagates), scan for today's lesson (none ⇒ skip, zero
sends), fetch the roster (exception propagates), then attempt one
`client.sendText` per student — each attempt's failure caught independently.
The returned list is the sequence of attempted sends. -/
def push_daily_summary (fetchCourse : Except String (List CourseRow))
    (fetchStudents : Except String (List StudentRow))
    (today : String) (sendOk : String → String → Bool) :
    Except String (List SendRecord) :=
  match fetchCourse with
  | .error e => .error e
  | .ok rows =>
    match findLesson rows today with
    | none => .ok []
    | some info =>
      match fetchStudents with
      | .error e => .error e
      | .ok srows =>
        .ok ((students_for_class srows info.className).map (mkSendMain info sendOk))

/-- The f-string body of `src/main-adk-inmemoryserssionservice.py` lines
202-207 for one student (no "in mathematics"). -/
def pushBodyAdk (name : String) (clas teacher topic : Option String) : String :=
  "👋 Hello " ++ name ++ ",\n\nToday in class *" ++ pyStr clas ++ "* with " ++ pyStr teacher ++
    ", we covered:\n📚 *" ++ pyStr topic ++
    "*\n\nNeed a recap or have doubts?\nJust reply here!"

/-- The module-level binding of `src/main-adk-inmemoryserssionservice.py`
lines 140-144: `data = today_topic(gc)` followed immediately by
`data["topic"], data["class"], data["teacher"], data["subject"]` with no
`None` check — subscripting the `None` result raises a `TypeError`. -/
def adkStartup (fetchCourse : Except String (List CourseRow)) (today : String) :
    Except String LessonInfo :=
  match today_topic fetchCourse today with
  | .error e => .error e
  | .ok none => .error "TypeError: NoneType object is not subscriptable"
  | .ok (some info) => .ok info

/-- One iteration of the ADK push loop (lines 200-224) for one student:
`jid = USER_ID_HEADER + stu["phone"] + "@c.us"`, the f-string body (all
lesson fields read from the startup record, see `push_daily_summary_adk`),
and one guarded `client.sendText(jid, body)`. -/
def mkSendAdk (d : LessonInfo) (sendOk : String → String → Bool) (stu : Student) :
    SendRecord :=
  { jid := "91" ++ stu.phone ++ "@c.us",
    body := pushBodyAdk stu.name d.className d.teacher d.topic,
    ok := sendOk ("91" ++ stu.phone ++ "@c.us")
      (pushBodyAdk stu.name d.className d.teacher d.topic) }

/-- `push_daily_summary` of `src/main-adk-inmemoryserssionservice.py` (lines
190-224): it re-fetches today's lesson and gates on it, but then unpacks the
module-level `data` captured at startup (`startupData` here) — lines 197-199
read `data[...]`, not `info[...]` — so the roster class and every body come
from the startup record. Per student it creates an in-memory session
(`session_service.create_session`, user and session id = jid) and attempts
one `client.sendText`; the per-student `except` catches failures
independently. Returns the attempted sends and the updated session-id list. -/
def push_daily_summary_adk (startupData : LessonInfo)
    (fetchCourse : Except String (List CourseRow))
    (fetchStudents : Except String (List StudentRow))
    (today : String) (sendOk : String → String → Bool)
    (sessions : List String) :
    Except String (List SendRecord × List String) :=
  match fetchCourse with
  | .error e => .error e
  | .ok rows =>
    match findLesson rows today with
    | none => .ok ([], sessions)
    | some _info =>
      match fetchStudents with
      | .error e => .error e
      | .ok srows =>
        let roster := students_for_class srows startupData.className
        .ok (roster.map (mkSendAdk startupData sendOk),
          sessions ++ roster.map (fun stu : Student => "91" ++ stu.phone ++ "@c.us"))

/-- An inbound WhatsApp message event as the handlers read it: the
`isGroupMsg` flag, `message["from"]`, `message.get("body")` (`none` when the
key is absent or the value is `None`), and `message["id"]`. -/
structure Message where
  isGroupMsg : Bool
  sender : String
  body : Option String
  msgId : String
  deriving Repr, DecidableEq

/-- What a handler invocation did: returned without replying, let an
exception escape to the caller, or sent a reply with the given body. -/
inductive Outcome where
  | ignored
  | raised (e : String)
  | replied (body : String)
  deriving Repr, DecidableEq

/-- The chat pool of `src/main.py` line 174: an insertion-ordered map from
jid to chat session, plus the next allocation number for chat objects. -/
structure MainState where
  chat_pool : List (String × Chat)
  nextChatId : Nat
  deriving Repr, DecidableEq

/-- Dictionary lookup in the chat pool. -/
def poolFind (pool : List (String × Chat)) (jid : String) : Option Chat :=
  match pool with
  | [] => none
  | (k, c) :: rest => if k == jid then some c else poolFind rest jid

/-- The result of one `incoming_listener` invocation: its outcome, the state
of the chat pool afterwards, whether `chat.send_message` (the LLM call) was
invoked, and on which chat object. -/
structure ListenerResult where
  outcome : Outcome
  state : MainState
  llmCalled : Bool
  usedChat : Option Chat
  deriving Repr, DecidableEq

/-- `incoming_listener` of `src/main.py` (lines 201-248). Control flow, as in
the source: a falsy message or a group message returns at once; the body is
read with `message.get("body", "").strip()` (no emptiness check); the sheet
fetch and lesson scan run with NO surrounding try/except, so a fetch
exception escapes the handler; a missing lesson is answered with the fixed
"no class" reply; otherwise `chat_pool.setdefault(jid, new_chat(...))` runs —
Python evaluates the `new_chat(...)` argument eagerly, so a chat object is
allocated on every call and discarded when the key already exists — and only
the `chat.send_message` call sits in a try/except, its failure replaced by
the fixed apology. -/
def incoming_listener (msg : Option Message)
    (fetchCourse : Except String (List CourseRow)) (today : String)
    (llm : Chat → String → Except String String)
    (st : MainState) : ListenerResult :=
  match msg with
  | none => { outcome := .ignored, state := st, llmCalled := false, usedChat := none }
  | some m =>
    if m.isGroupMsg then
      { outcome := .ignored, state := st, llmCalled := false, usedChat := none }
    else
      let jid := m.sender
      let text := pyStrip (m.body.getD "")
      match fetchCourse with
      | .error e => { outcome := .raised e, state := st, llmCalled := false, usedChat := none }
      | .ok rows =>
        match findLesson rows today with
        | none =>
          { outcome := .replied "No class today — enjoy your break 🎉", state := st,
            llmCalled := false, usedChat := none }
        | some info =>
          let fresh := new_chat info.topic info.subject info.teacher info.className st.nextChatId
          let chat := (poolFind st.chat_pool jid).getD fresh
          let pool :=
            match poolFind st.chat_pool jid with
            | some _ => st.chat_pool
            | none => st.chat_pool ++ [(jid, fresh)]
          let st' : MainState := { chat_pool := pool, nextChatId := st.nextChatId + 1 }
          match llm chat text with
          | .ok answer =>
            { outcome := .replied answer, state := st', llmCalled := true, usedChat := some chat }
          | .error _ =>
            { outcome := .replied "Sorry, I hit a snag. Please try again?", state := st',
              llmCalled := true, usedChat := some chat }

/-- The result of one `handle_message` invocation in the ADK variant: its
outcome, the session-id list afterwards, and whether `runner.run` (the LLM
call) was invoked. -/
structure AdkResult where
  outcome : Outcome
  sessions : List String
  llmCalled : Bool
  deriving Repr, DecidableEq

/-- `handle_message` of `src/main-adk-inmemoryserssionservice.py` (lines
228-278). A falsy or group message returns; an empty (stripped) body returns
silently with no reply; everything after that runs inside the outer
try/except, whose handler replies the fixed "Sorry, I encountered an error.";
a missing lesson gets the fixed "no class" reply; otherwise `runner.run` is
invoked — it raises when no session exists for the jid (sessions here are
only ever created by the push job), and the inner except turns any such
failure into the fixed "I encountered an error processing your request."; a
run that yields no final response keeps the default "I couldn't generate a
response." text. The oracle `runnerRun jid text` returns `.error` for a
raised exception, `.ok none` for no final response event, `.ok (some t)` for
a final response with text `t`. The handler never adds to `sessions`. -/
def handle_message (msg : Option Message)
    (fetchCourse : Except String (List CourseRow)) (today : String)
    (runnerRun : String → String → Except String (Option String))
    (sessions : List String) : AdkResult :=
  match msg with
  | none => { outcome := .ignored, sessions := sessions, llmCalled := false }
  | some m =>
    if m.isGroupMsg then
      { outcome := .ignored, sessions := sessions, llmCalled := false }
    else
      let jid := m.sender
      let text := pyStrip (m.body.getD "")
      if text == "" then
        { outcome := .ignored, sessions := sessions, llmCalled := false }
      else
        match fetchCourse with
        | .error _e =>
          { outcome := .replied "Sorry, I encountered an error.", sessions := sessions,
            llmCalled := false }
        | .ok rows =>
          match findLesson rows today with
          | none =>
            { outcome := .replied "No class today — enjoy your break 🎉", sessions := sessions,
              llmCalled := false }
          | some _info =>
            let reply :=
              if sessions.contains jid then
                match runnerRun jid text with
                | .ok (some t) => t
                | .ok none => "I couldn\x27t generate a response. Please try again."
                | .error _ => "I encountered an error processing your request."
              else "I encountered an error processing your request."
            { outcome := .replied reply, sessions := sessions, llmCalled := true }

/-- Total variant of `mkFields` (used to express the result of a `format`
call in which every referenced keyword was passed): the same four bindings,
with an arbitrary value on unbound names. -/
def mkFieldsTotal (topic subject teacher clas : Option String) : String → String :=
  fun k =>
    if k == "TOPIC" then pyStr topic
    else if k == "SUBJECT" then pyStr subject
    else if k == "TEACHER" then pyStr teacher
    else if k == "CLASS" then pyStr clas
    else "None"

/-! Concrete inputs used by counterexamples and witnesses. -/

/-- A course row scheduled for 2025-01-01. -/
def rowJan1 : CourseRow :=
  { scheduleDate := some "2025-01-01", topic := some "Photosynthesis",
    className := some "7A", teacher := some "Ms. Rao", subject := some "Science" }

/-- A course row scheduled for 2025-01-02. -/
def rowJan2 : CourseRow :=
  { scheduleDate := some "2025-01-02", topic := some "Electricity",
    className := some "7A", teacher := some "Mr. Sen", subject := some "Science" }

/-- A lesson record as fetched at process startup (ADK variant), with fields
different from the rows fetched later. -/
def startupOld : LessonInfo :=
  { topic := some "Old Topic", className := some "7B",
    teacher := some "Old Teacher", subject := some "Science" }

/-- Roster row for class 7A. -/
def ashaRow : StudentRow :=
  { studentName := "Asha", whatsappNumber := "9876543210", className := "7A" }

/-- Roster row for class 7B. -/
def raviRow : StudentRow :=
  { studentName := "Ravi", whatsappNumber := "9876500000", className := "7B" }

/-- Roster row for class 7A whose phone already starts with the country code
behind a `'+'`. -/
def meeraRow : StudentRow :=
  { studentName := "Meera", whatsappNumber := "+911234567890", className := "7A" }

/-- A private inbound message with a normal text body. -/
def msgHello : Message :=
  { isGroupMsg := false, sender := "919876543210@c.us", body := some "hello", msgId := "MSGID1" }

/-- A private inbound message with an empty body. -/
def msgEmpty : Message :=
  { isGroupMsg := false, sender := "919876543210@c.us", body := some "", msgId := "MSGID2" }

/-- A private inbound message whose body is a single emoji (no words;
nonempty after `.strip()`). -/
def msgEmoji : Message :=
  { isGroupMsg := false, sender := "919876543210@c.us", body := some "😊", msgId := "MSGID3" }

/-! Helper lemmas about the `format` embedding. -/

/-- If every placeholder of the template is bound, `format` succeeds and is
plain substitution. -/
theorem pyFormat_total (segs : List Seg) (f : String → Option String) (g : String → String)
    (h : ∀ v, v ∈ segVars segs → f v = some (g v)) :
    pyFormat segs f = .ok (substSegs segs g) := by
  induction segs with
  | nil => rfl
  | cons s rest ih =>
    cases s with
    | lit t =>
      have hr := ih (fun v hv => h v (by simpa [segVars] using hv))
      simp [pyFormat, substSegs, hr, Except.map]
    | var v =>
      have hv := h v (by simp [segVars])
      have hr := ih (fun w hw => h w (by simp [segVars]; exact Or.inr hw))
      simp [pyFormat, substSegs, hv, hr, Except.map]

/-- If some placeholder of the template is unbound, `format` raises. -/
theorem pyFormat_missing (segs : List Seg) (f : String → Option String) (v : String)
    (hv : v ∈ segVars segs) (hf : f v = none) :
    ∃ e, pyFormat segs f = .error e := by
  induction segs with
  | nil => simp [segVars] at hv
  | cons s rest ih =>
    cases s with
    | lit t =>
      obtain ⟨e, he⟩ := ih (by simpa [segVars] using hv)
      exact ⟨e, by simp [pyFormat, he, Except.map]⟩
    | var w =>
      rcases hw : f w with _ | s
      · exact ⟨"KeyError: " ++ w, by simp [pyFormat, hw]⟩
      · have hvr : v ∈ segVars rest := by
          simp [segVars] at hv
          rcases hv with rfl | hv
          · simp [hw] at hf
          · exact hv
        obtain ⟨e, he⟩ := ih hvr
        exact ⟨e, by simp [pyFormat, hw, he, Except.map]⟩

/-- The placeholder names of both templates are among the four keywords. -/
theorem segVars_mem (v : String)
    (hv : v ∈ segVars SYSTEM_PROMPT_segs ∨ v ∈ segVars SYSTEM_PROMPT_TMPL_segs) :
    v = "TOPIC" ∨ v = "SUBJECT" ∨ v = "TEACHER" ∨ v = "CLASS" := by
  have e1 : segVars SYSTEM_PROMPT_segs =
      ["SUBJECT", "CLASS", "TOPIC", "TEACHER", "TOPIC", "TOPIC", "TOPIC", "TOPIC", "SUBJECT"] :=
    by decide
  have e2 : segVars SYSTEM_PROMPT_TMPL_segs =
      ["SUBJECT", "CLASS", "TOPIC", "TEACHER", "TOPIC", "TOPIC", "TOPIC", "TOPIC", "SUBJECT"] :=
    by decide
  rcases hv with hv | hv
  · rw [e1] at hv; simp at hv; tauto
  · rw [e2] at hv; simp at hv; tauto

/-- On the four keyword names, `mkFields` is `some` of `mkFieldsTotal`. -/
theorem mkFields_eq_total (t s te c : Option String) (v : String)
    (hv : v = "TOPIC" ∨ v = "SUBJECT" ∨ v = "TEACHER" ∨ v = "CLASS") :
    mkFields t s te c v = some (mkFieldsTotal t s te c v) := by
  rcases hv with rfl | rfl | rfl | rfl <;> rfl

/-- C8: the prompt composer is pure string substitution of exactly the four
fields TOPIC, SUBJECT, TEACHER, CLASS into the fixed templates (both files
reference exactly those four placeholder names); a `format` call in which all
four are passed succeeds and is plain substitution (`new_chat` always passes
all four), and a call in which any referenced field is missing raises a
`KeyError` instead of producing a prompt. -/
theorem C8_prompt_composer :
    firstOccurrences (segVars SYSTEM_PROMPT_segs) = ["SUBJECT", "CLASS", "TOPIC", "TEACHER"] ∧
    firstOccurrences (segVars SYSTEM_PROMPT_TMPL_segs) =
      ["SUBJECT", "CLASS", "TOPIC", "TEACHER"] ∧
    (∀ topic subject teacher clas,
      new_chat_prompt topic subject teacher clas =
        .ok (substSegs SYSTEM_PROMPT_segs (mkFieldsTotal topic subject teacher clas))) ∧
    (∀ f v, v ∈ segVars SYSTEM_PROMPT_segs → f v = none →
      ∃ e, pyFormat SYSTEM_PROMPT_segs f = .error e) := by
  refine ⟨by decide, by decide, ?_, ?_⟩
  · intro topic subject teacher clas
    exact pyFormat_total _ _ _ (fun v hv =>
      mkFields_eq_total topic subject teacher clas v (segVars_mem v (Or.inl hv)))
  · intro f v hv hf
    exact pyFormat_missing _ f v hv hf

/-- C8 witness: at the concrete empty keyword map, the `TOPIC` placeholder is
referenced and unbound, and formatting the template indeed raises. -/
theorem C8_prompt_composer_witness :
    ("TOPIC" ∈ segVars SYSTEM_PROMPT_segs ∧ (fun _ => (none : Option String)) "TOPIC" = none) ∧
    (∃ e, pyFormat SYSTEM_PROMPT_segs (fun _ => (none : Option String)) = .error e) :=
  ⟨⟨by decide, rfl⟩,
    C8_prompt_composer.2.2.2 (fun _ => (none : Option String)) "TOPIC" (by decide) rfl⟩

/-- C10: normalization removes ALL leading plus characters (`lstrip("+")`),
and the country-code prefix `"91"` is prepended unconditionally, so the
roster phone `"+911234567890"` yields the push identifier `"91911234567890"`
(prefix duplicated) in `main.py`, and `"91911234567890@c.us"` in the ADK
variant. -/
theorem C10_prefix_duplication :
    normalizePhone "+911234567890" = "911234567890" ∧
    normalizePhone "+++911234567890" = "911234567890" ∧
    (∀ l : List Char, normalizePhone (String.mk ('+' :: l)) = normalizePhone (String.mk l)) ∧
    push_daily_summary (.ok [rowJan1]) (.ok [meeraRow]) "2025-01-01" (fun _ _ => true) =
      .ok [{ jid := "91911234567890",
             body := pushBodyMain "Meera" (some "7A") (some "Ms. Rao") (some "Photosynthesis"),
             ok := true }] ∧
    push_daily_summary_adk
        { topic := some "Photosynthesis", className := some "7A",
          teacher := some "Ms. Rao", subject := some "Science" }
        (.ok [rowJan1]) (.ok [meeraRow]) "2025-01-01" (fun _ _ => true) [] =
      .ok ([{ jid := "91911234567890@c.us",
              body := pushBodyAdk "Meera" (some "7A") (some "Ms. Rao") (some "Photosynthesis"),
              ok := true }],
           ["91911234567890@c.us"]) := by
  refine ⟨by decide, by decide, ?_, rfl, rfl⟩
  intro l
  simp [normalizePhone, List.dropWhile]

/-- C3 failing run (code bug in the ADK variant): the startup-time record
`startupOld` (topic "Old Topic", class 7B) differs from the lesson row
fetched during the run (`rowJan1`: topic "Photosynthesis", class 7A, roster
member Asha). `src/main-adk-inmemoryserssionservice.py` lines 197-199 unpack
the module-level `data` instead of the freshly fetched `info`, so its push
run sends to the STARTUP class's roster (Ravi, 7B) with the STARTUP topic and
teacher in the body — while `main.py` on the same inputs sends to Asha (7A)
with the fresh topic, as the spec describes. -/
theorem C3_stale_record_bug :
    push_daily_summary_adk startupOld (.ok [rowJan1]) (.ok [ashaRow, raviRow]) "2025-01-01"
        (fun _ _ => true) [] =
      .ok ([{ jid := "919876500000@c.us",
              body := pushBodyAdk "Ravi" (some "7B") (some "Old Teacher") (some "Old Topic"),
              ok := true }],
           ["919876500000@c.us"]) ∧
    push_daily_summary (.ok [rowJan1]) (.ok [ashaRow, raviRow]) "2025-01-01" (fun _ _ => true) =
      .ok [{ jid := "919876543210",
             body := pushBodyMain "Asha" (some "7A") (some "Ms. Rao") (some "Photosynthesis"),
             ok := true }] := by
  exact ⟨rfl, rfl⟩

/-- C1 counterexample: an inbound private message with an EMPTY body, with a
lesson scheduled. `main.py`'s `incoming_listener` has no empty-body check: it
invokes the LLM call (`llmCalled = true`) and relays the model's answer — it
does not short-circuit with the fixed "send in words" prompt. The ADK
variant's `handle_message` returns silently on the same message: no LLM call,
but also NO reply at all, in particular not the fixed prompt. -/
theorem C1_counterexample :
    (incoming_listener (some msgEmpty) (.ok [rowJan1]) "2025-01-01"
        (fun _ _ => .ok "LLM ANSWER") { chat_pool := [], nextChatId := 0 }).llmCalled = true ∧
    (incoming_listener (some msgEmpty) (.ok [rowJan1]) "2025-01-01"
        (fun _ _ => .ok "LLM ANSWER") { chat_pool := [], nextChatId := 0 }).outcome =
      .replied "LLM ANSWER" ∧
    (incoming_listener (some msgEmpty) (.ok [rowJan1]) "2025-01-01"
        (fun _ _ => .ok "LLM ANSWER") { chat_pool := [], nextChatId := 0 }).outcome ≠
      .replied "Please send your question in words so I can help you better 😊" ∧
    (handle_message (some msgEmpty) (.ok [rowJan1]) "2025-01-01"
        (fun _ _ => .ok (some "LLM ANSWER")) []).outcome = .ignored := by
  refine ⟨rfl, rfl, by decide, by decide⟩

/-- C2 counterexample: with a lesson-sheet fetch failure (e.g. an auth
error), `main.py`'s `incoming_listener` lets the exception escape to its
caller — the fetch and lookup are outside any try/except — so the user's
message is dropped with no apology reply. -/
theorem C2_counterexample :
    (incoming_listener (some msgHello) (.error "APIError: invalid credentials") "2025-01-01"
        (fun _ _ => .ok "LLM ANSWER") { chat_pool := [], nextChatId := 0 }).outcome =
      .raised "APIError: invalid credentials" := rfl

/-- C7 counterexample: in the ADK variant, a recipient's FIRST inbound
message (no session exists, session list empty) does not make the handler
create a session: the session list is unchanged afterwards, and — because
`runner.run` raises on the missing session — the reply is the fixed error
fallback even though the LLM oracle is healthy. Sessions are only ever
created by the push job, not lazily by the inbound handler. -/
theorem C7_counterexample :
    (handle_message (some msgHello) (.ok [rowJan1]) "2025-01-01"
        (fun _ _ => .ok (some "LLM ANSWER")) []).sessions = [] ∧
    (handle_message (some msgHello) (.ok [rowJan1]) "2025-01-01"
        (fun _ _ => .ok (some "LLM ANSWER")) []).outcome =
      .replied "I encountered an error processing your request." := ⟨rfl, rfl⟩

/-- C9 counterexample: the module-level startup caller of the ADK variant
(lines 140-144) does NOT treat the `None` lookup result as a normal outcome:
on a day with no matching lesson row it subscripts `None` and raises a
`TypeError`, so the process fails to start. -/
theorem C9_counterexample :
    adkStartup (.ok [rowJan1]) "2025-06-30" =
      .error "TypeError: NoneType object is not subscriptable" := rfl

/-- C1 (amended): the ADK `handle_message` returns silently — no reply, no
LLM call — on any private message whose stripped body is empty; `main.py`'s
`incoming_listener` has no such short-circuit at all: whenever a lesson is
found it invokes the LLM, for empty and emoji-only bodies too (the fixed
"send in words" reply exists only as an instruction inside the LLM system
prompt, not in handler code). -/
theorem C1_short_circuit_amended :
    (∀ (m : Message) fetchCourse today rrun sessions,
      m.isGroupMsg = false → pyStrip (m.body.getD "") = "" →
      handle_message (some m) fetchCourse today rrun sessions =
        { outcome := .ignored, sessions := sessions, llmCalled := false }) ∧
    (∀ (m : Message) rows today llm st info,
      m.isGroupMsg = false → findLesson rows today = some info →
      (incoming_listener (some m) (.ok rows) today llm st).llmCalled = true) := by
  constructor
  · intro m fetchCourse today rrun sessions hg ht
    simp [handle_message, hg, ht]
  · intro m rows today llm st info hg hl
    cases hllm : llm ((poolFind st.chat_pool m.sender).getD
        (new_chat info.topic info.subject info.teacher info.className st.nextChatId))
        (pyStrip (m.body.getD "")) <;>
      simp [incoming_listener, hg, hl, hllm]

/-- C1 witness: the empty-body message satisfies the amended theorem's
hypotheses, and the emoji-only message still reaches the `main.py` LLM call. -/
theorem C1_short_circuit_amended_witness :
    (msgEmpty.isGroupMsg = false ∧ pyStrip (msgEmpty.body.getD "") = "" ∧
      handle_message (some msgEmpty) (.ok [rowJan1]) "2025-01-01"
          (fun _ _ => .ok (some "LLM ANSWER")) [] =
        { outcome := .ignored, sessions := [], llmCalled := false }) ∧
    (incoming_listener (some msgEmoji) (.ok [rowJan1]) "2025-01-01"
        (fun _ _ => .ok "LLM ANSWER") { chat_pool := [], nextChatId := 0 }).llmCalled = true :=
  ⟨⟨rfl, rfl, C1_short_circuit_amended.1 msgEmpty (.ok [rowJan1]) "2025-01-01"
      (fun _ _ => .ok (some "LLM ANSWER")) [] rfl rfl⟩,
   C1_short_circuit_amended.2 msgEmoji [rowJan1] "2025-01-01" (fun _ _ => .ok "LLM ANSWER")
      { chat_pool := [], nextChatId := 0 } (rowInfo rowJan1) rfl rfl⟩

/-- C2 (amended): the ADK `handle_message` never lets an exception escape —
its outcome is never `raised`, every failure being converted to a fixed reply.
`main.py`'s `incoming_listener` guards only the LLM call: an LLM failure is
converted to the fixed apology, but a spreadsheet fetch failure escapes (see
the counterexample). -/
theorem C2_exception_containment :
    (∀ msg fetchCourse today rrun sessions e,
      (handle_message msg fetchCourse today rrun sessions).outcome ≠ .raised e) ∧
    (∀ (m : Message) rows today llm st info,
      m.isGroupMsg = false → findLesson rows today = some info →
      (∀ c t, ∃ err, llm c t = Except.error err) →
      (incoming_listener (some m) (.ok rows) today llm st).outcome =
        .replied "Sorry, I hit a snag. Please try again?") := by
  constructor
  · intro msg fetchCourse today rrun sessions e
    unfold handle_message
    rcases msg with _ | m
    · simp
    · dsimp only
      split
      · simp
      · split
        · simp
        · rcases fetchCourse with e' | rows
          · simp
          · dsimp only
            rcases hl : findLesson rows today with _ | info <;> simp [hl]
  · intro m rows today llm st info hg hl hfail
    obtain ⟨err, herr⟩ := hfail
      ((poolFind st.chat_pool m.sender).getD
        (new_chat info.topic info.subject info.teacher info.className st.nextChatId))
      (pyStrip (m.body.getD ""))
    simp [incoming_listener, hg, hl, herr]

/-- C2 witness: at concrete inputs, the ADK handler does not raise even with
a failing fetch, and the `main.py` listener converts a failing LLM call into
the fixed apology. -/
theorem C2_exception_containment_witness :
    (handle_message (some msgHello) (.error "APIError: invalid credentials") "2025-01-01"
        (fun _ _ => .ok (some "LLM ANSWER")) []).outcome ≠ .raised "APIError: invalid credentials" ∧
    (msgHello.isGroupMsg = false ∧ findLesson [rowJan1] "2025-01-01" = some (rowInfo rowJan1) ∧
      (incoming_listener (some msgHello) (.ok [rowJan1]) "2025-01-01"
          (fun _ _ => .error "DeadlineExceeded") { chat_pool := [], nextChatId := 0 }).outcome =
        .replied "Sorry, I hit a snag. Please try again?") :=
  ⟨C2_exception_containment.1 (some msgHello) (.error "APIError: invalid credentials")
      "2025-01-01" (fun _ _ => .ok (some "LLM ANSWER")) [] "APIError: invalid credentials",
   ⟨rfl, rfl, C2_exception_containment.2 msgHello [rowJan1] "2025-01-01"
      (fun _ _ => .error "DeadlineExceeded") { chat_pool := [], nextChatId := 0 }
      (rowInfo rowJan1) rfl rfl (fun _ _ => ⟨"DeadlineExceeded", rfl⟩)⟩⟩

/-- C4 counterexample: a push run of the ADK variant where the startup
record's class (7B) differs from the freshly MATCHED lesson's class (7A).
The matched class's roster is exactly Asha, yet the run's attempted sends
consist of one record for Ravi (7B) whose jid is not Asha's derived jid —
zero sends are attempted per student of the matched class, refuting "exactly
one outbound send is attempted per student in the matched class" for the ADK
file (lines 197-200 take the class from the module-level `data`, see C3). -/
theorem C4_counterexample :
    findLesson [rowJan1] "2025-01-01" = some (rowInfo rowJan1) ∧
    (rowInfo rowJan1).className = some "7A" ∧
    students_for_class [ashaRow, raviRow] (rowInfo rowJan1).className =
      [{ name := "Asha", phone := "9876543210" }] ∧
    push_daily_summary_adk startupOld (.ok [rowJan1]) (.ok [ashaRow, raviRow]) "2025-01-01"
        (fun _ _ => true) [] =
      .ok ([{ jid := "919876500000@c.us",
              body := pushBodyAdk "Ravi" (some "7B") (some "Old Teacher") (some "Old Topic"),
              ok := true }],
           ["919876500000@c.us"]) ∧
    ({ jid := "919876500000@c.us",
       body := pushBodyAdk "Ravi" (some "7B") (some "Old Teacher") (some "Old Topic"),
       ok := true } : SendRecord).jid ≠ "91" ++ "9876543210" ++ "@c.us" :=
  ⟨rfl, rfl, rfl, rfl, by decide⟩

/-- C4 (amended): on a push run with a matched lesson, exactly one send is
attempted per student of the roster the run actually iterates — the matched
lesson's class in `main.py`, but the STARTUP record's class in the ADK
variant (lines 197-200, see C3) — the attempted (jid, body) sequence has one
entry per such student, in roster order, and is the same whatever the
per-send success oracle says, so one student's send failure (caught by the
per-student `except`) does not prevent or change the attempts for the
others. -/
theorem C4_per_student_isolation :
    (∀ rows srows today info sendOk1 sendOk2,
      findLesson rows today = some info →
      ∃ recs1 recs2 : List SendRecord,
        push_daily_summary (.ok rows) (.ok srows) today sendOk1 = .ok recs1 ∧
        push_daily_summary (.ok rows) (.ok srows) today sendOk2 = .ok recs2 ∧
        recs1.length = (students_for_class srows info.className).length ∧
        recs1.map (fun r : SendRecord => (r.jid, r.body)) = recs2.map (fun r : SendRecord => (r.jid, r.body)) ∧
        ∀ i : Nat, recs1[i]?.map (fun r : SendRecord => r.jid) =
          ((students_for_class srows info.className)[i]?).map (fun stu : Student => "91" ++ stu.phone)) ∧
    (∀ startupData rows srows today sendOk1 sendOk2 sessions info,
      findLesson rows today = some info →
      ∃ (recs1 : List SendRecord) (sess1 : List String)
        (recs2 : List SendRecord) (sess2 : List String),
        push_daily_summary_adk startupData (.ok rows) (.ok srows) today sendOk1 sessions =
          .ok (recs1, sess1) ∧
        push_daily_summary_adk startupData (.ok rows) (.ok srows) today sendOk2 sessions =
          .ok (recs2, sess2) ∧
        recs1.length = (students_for_class srows startupData.className).length ∧
        recs1.map (fun r : SendRecord => (r.jid, r.body)) = recs2.map (fun r : SendRecord => (r.jid, r.body))) := by
  constructor
  · intro rows srows today info sendOk1 sendOk2 hl
    refine ⟨(students_for_class srows info.className).map (mkSendMain info sendOk1),
      (students_for_class srows info.className).map (mkSendMain info sendOk2),
      by simp [push_daily_summary, hl], by simp [push_daily_summary, hl], by simp, ?_, ?_⟩
    · simp [List.map_map, Function.comp, mkSendMain]
    · intro i
      simp only [List.getElem?_map]
      cases (students_for_class srows info.className)[i]? <;> simp [mkSendMain]
  · intro startupData rows srows today sendOk1 sendOk2 sessions info hl
    refine ⟨(students_for_class srows startupData.className).map (mkSendAdk startupData sendOk1),
      sessions ++ (students_for_class srows startupData.className).map
        (fun stu : Student => "91" ++ stu.phone ++ "@c.us"),
      (students_for_class srows startupData.className).map (mkSendAdk startupData sendOk2),
      sessions ++ (students_for_class srows startupData.className).map
        (fun stu : Student => "91" ++ stu.phone ++ "@c.us"),
      by simp [push_daily_summary_adk, hl], by simp [push_daily_summary_adk, hl], by simp, ?_⟩
    simp [List.map_map, Function.comp, mkSendAdk]

/-- C4 witness: concrete push run (lesson matched, two 7A students) where the
send to the first student fails: the hypotheses hold and the theorem applies. -/
theorem C4_per_student_isolation_witness :
    findLesson [rowJan1] "2025-01-01" = some (rowInfo rowJan1) ∧
    (∃ recs1 recs2 : List SendRecord,
      push_daily_summary (.ok [rowJan1]) (.ok [ashaRow, meeraRow]) "2025-01-01"
          (fun jid _ => !(jid == "919876543210")) = .ok recs1 ∧
      push_daily_summary (.ok [rowJan1]) (.ok [ashaRow, meeraRow]) "2025-01-01"
          (fun _ _ => true) = .ok recs2 ∧
      recs1.length =
        (students_for_class [ashaRow, meeraRow] (rowInfo rowJan1).className).length ∧
      recs1.map (fun r : SendRecord => (r.jid, r.body)) = recs2.map (fun r : SendRecord => (r.jid, r.body)) ∧
      ∀ i : Nat, recs1[i]?.map (fun r : SendRecord => r.jid) =
        ((students_for_class [ashaRow, meeraRow] (rowInfo rowJan1).className)[i]?).map
          (fun stu : Student => "91" ++ stu.phone)) :=
  ⟨rfl, C4_per_student_isolation.1 [rowJan1] [ashaRow, meeraRow] "2025-01-01" (rowInfo rowJan1)
    (fun jid _ => !(jid == "919876543210")) (fun _ _ => true) rfl⟩

/-- C5: on a date with no matching lesson row, both push jobs perform zero
sends, and both inbound handlers (for a handled private message) reply with
the fixed "no class today" message without invoking the LLM. -/
theorem C5_no_lesson_no_sends :
    (∀ rows srows today sendOk, findLesson rows today = none →
      push_daily_summary (.ok rows) (.ok srows) today sendOk = .ok []) ∧
    (∀ startupData rows srows today sendOk sessions, findLesson rows today = none →
      push_daily_summary_adk startupData (.ok rows) (.ok srows) today sendOk sessions =
        .ok ([], sessions)) ∧
    (∀ (m : Message) rows today llm st, m.isGroupMsg = false → findLesson rows today = none →
      incoming_listener (some m) (.ok rows) today llm st =
        { outcome := .replied "No class today — enjoy your break 🎉", state := st,
          llmCalled := false, usedChat := none }) ∧
    (∀ (m : Message) rows today rrun sessions, m.isGroupMsg = false →
      pyStrip (m.body.getD "") ≠ "" → findLesson rows today = none →
      handle_message (some m) (.ok rows) today rrun sessions =
        { outcome := .replied "No class today — enjoy your break 🎉", sessions := sessions,
          llmCalled := false }) := by
  refine ⟨?_, ?_, ?_, ?_⟩
  · intro rows srows today sendOk hl
    simp [push_daily_summary, hl]
  · intro startupData rows srows today sendOk sessions hl
    simp [push_daily_summary_adk, hl]
  · intro m rows today llm st hg hl
    simp [incoming_listener, hg, hl]
  · intro m rows today rrun sessions hg ht hl
    simp [handle_message, hg, ht, hl]

/-- C5 witness: concrete date 2025-01-01 against a sheet whose only row is
scheduled 2025-01-02 (no match), with a normal private message. -/
theorem C5_no_lesson_no_sends_witness :
    findLesson [rowJan2] "2025-01-01" = none ∧
    push_daily_summary (.ok [rowJan2]) (.ok [ashaRow]) "2025-01-01" (fun _ _ => true) = .ok [] ∧
    push_daily_summary_adk startupOld (.ok [rowJan2]) (.ok [ashaRow]) "2025-01-01"
        (fun _ _ => true) [] = .ok ([], []) ∧
    incoming_listener (some msgHello) (.ok [rowJan2]) "2025-01-01"
        (fun _ _ => .ok "LLM ANSWER") { chat_pool := [], nextChatId := 0 } =
      { outcome := .replied "No class today — enjoy your break 🎉",
        state := { chat_pool := [], nextChatId := 0 }, llmCalled := false, usedChat := none } ∧
    handle_message (some msgHello) (.ok [rowJan2]) "2025-01-01"
        (fun _ _ => .ok (some "LLM ANSWER")) [] =
      { outcome := .replied "No class today — enjoy your break 🎉", sessions := [],
        llmCalled := false } :=
  ⟨rfl,
   C5_no_lesson_no_sends.1 [rowJan2] [ashaRow] "2025-01-01" (fun _ _ => true) rfl,
   C5_no_lesson_no_sends.2.1 startupOld [rowJan2] [ashaRow] "2025-01-01" (fun _ _ => true) [] rfl,
   C5_no_lesson_no_sends.2.2.1 msgHello [rowJan2] "2025-01-01" (fun _ _ => .ok "LLM ANSWER")
     { chat_pool := [], nextChatId := 0 } rfl rfl,
   C5_no_lesson_no_sends.2.2.2 msgHello [rowJan2] "2025-01-01"
     (fun _ _ => .ok (some "LLM ANSWER")) [] rfl (by decide) rfl⟩

/-- C6: roster phones are stored with leading `'+'` stripped (the concrete
input `"+911234567890"` becomes `"911234567890"`), every roster row of the
requested class contributes its normalized phone, and the push identifier is
the fixed deterministic rule — `"91" ++ phone` in `main.py`,
`"91" ++ phone ++ "@c.us"` in the ADK variant — applied to each roster
student's normalized phone. -/
theorem C6_phone_normalization :
    normalizePhone "+911234567890" = "911234567890" ∧
    (∀ srows cls (r : StudentRow), r ∈ srows → pyEqOpt r.className cls = true →
      ({ name := r.studentName, phone := normalizePhone r.whatsappNumber } : Student) ∈
        students_for_class srows cls) ∧
    (∀ rows srows today sendOk info, findLesson rows today = some info →
      ∃ recs : List SendRecord,
        push_daily_summary (.ok rows) (.ok srows) today sendOk = .ok recs ∧
        recs.map (fun r : SendRecord => r.jid) =
          (students_for_class srows info.className).map
            (fun stu : Student => "91" ++ stu.phone)) ∧
    (∀ startupData rows srows today sendOk sessions info, findLesson rows today = some info →
      ∃ (recs : List SendRecord) (sess : List String),
        push_daily_summary_adk startupData (.ok rows) (.ok srows) today sendOk sessions =
          .ok (recs, sess) ∧
        recs.map (fun r : SendRecord => r.jid) =
          (students_for_class srows startupData.className).map
            (fun stu : Student => "91" ++ stu.phone ++ "@c.us")) := by
  refine ⟨by decide, ?_, ?_, ?_⟩
  · intro srows cls r hr hcls
    exact List.mem_map_of_mem _ (List.mem_filter.mpr ⟨hr, hcls⟩)
  · intro rows srows today sendOk info hl
    refine ⟨(students_for_class srows info.className).map (mkSendMain info sendOk),
      by simp [push_daily_summary, hl], ?_⟩
    simp [List.map_map, Function.comp, mkSendMain]
  · intro startupData rows srows today sendOk sessions info hl
    refine ⟨(students_for_class srows startupData.className).map (mkSendAdk startupData sendOk),
      sessions ++ (students_for_class srows startupData.className).map
        (fun stu : Student => "91" ++ stu.phone ++ "@c.us"),
      by simp [push_daily_summary_adk, hl], ?_⟩
    simp [List.map_map, Function.comp, mkSendAdk]

/-- C6 witness: the roster row with phone `"+911234567890"` in class 7A, with
the 2025-01-01 lesson matched, instantiates every hypothesis. -/
theorem C6_phone_normalization_witness :
    (meeraRow ∈ [meeraRow] ∧ pyEqOpt meeraRow.className (rowInfo rowJan1).className = true ∧
      ({ name := meeraRow.studentName, phone := normalizePhone meeraRow.whatsappNumber } :
          Student) ∈
        students_for_class [meeraRow] (rowInfo rowJan1).className) ∧
    findLesson [rowJan1] "2025-01-01" = some (rowInfo rowJan1) ∧
    (∃ recs : List SendRecord,
      push_daily_summary (.ok [rowJan1]) (.ok [meeraRow]) "2025-01-01" (fun _ _ => true) =
        .ok recs ∧
      recs.map (fun r : SendRecord => r.jid) =
        (students_for_class [meeraRow] (rowInfo rowJan1).className).map
          (fun stu : Student => "91" ++ stu.phone)) ∧
    (∃ (recs : List SendRecord) (sess : List String),
      push_daily_summary_adk startupOld (.ok [rowJan1]) (.ok [raviRow]) "2025-01-01"
          (fun _ _ => true) [] = .ok (recs, sess) ∧
      recs.map (fun r : SendRecord => r.jid) =
        (students_for_class [raviRow] startupOld.className).map
          (fun stu : Student => "91" ++ stu.phone ++ "@c.us")) :=
  ⟨⟨by decide, by decide,
    C6_phone_normalization.2.1 [meeraRow] (rowInfo rowJan1).className meeraRow (by decide)
      (by decide)⟩,
   rfl,
   C6_phone_normalization.2.2.1 [rowJan1] [meeraRow] "2025-01-01" (fun _ _ => true)
     (rowInfo rowJan1) rfl,
   C6_phone_normalization.2.2.2 startupOld [rowJan1] [raviRow] "2025-01-01" (fun _ _ => true)
     [] (rowInfo rowJan1) rfl⟩

/-- C7 (amended): in `main.py`, the session is created by the handler on a
recipient's first handled message (appended to `chat_pool`), every later
message reuses the SAME stored session object with the pool unchanged, and no
pool entry is ever removed; however `setdefault`'s default argument is
evaluated eagerly, so a fresh chat object is still constructed — and
discarded — on every message (the allocation counter advances even on reuse).
In the ADK variant the inbound handler NEVER creates a session: its session
list is unchanged by every invocation (sessions are created only by the push
job). -/
theorem C7_session_lifecycle :
    (∀ (m : Message) rows today llm st info,
      m.isGroupMsg = false → findLesson rows today = some info →
      poolFind st.chat_pool m.sender = none →
      (incoming_listener (some m) (.ok rows) today llm st).state.chat_pool =
        st.chat_pool ++
          [(m.sender,
            new_chat info.topic info.subject info.teacher info.className st.nextChatId)] ∧
      (incoming_listener (some m) (.ok rows) today llm st).usedChat =
        some (new_chat info.topic info.subject info.teacher info.className st.nextChatId)) ∧
    (∀ (m : Message) rows today llm st info c,
      m.isGroupMsg = false → findLesson rows today = some info →
      poolFind st.chat_pool m.sender = some c →
      (incoming_listener (some m) (.ok rows) today llm st).state.chat_pool = st.chat_pool ∧
      (incoming_listener (some m) (.ok rows) today llm st).usedChat = some c ∧
      (incoming_listener (some m) (.ok rows) today llm st).state.nextChatId =
        st.nextChatId + 1) ∧
    (∀ msg fetchCourse today llm st entry, entry ∈ st.chat_pool →
      entry ∈ (incoming_listener msg fetchCourse today llm st).state.chat_pool) ∧
    (∀ msg fetchCourse today rrun sessions,
      (handle_message msg fetchCourse today rrun sessions).sessions = sessions) := by
  refine ⟨?_, ?_, ?_, ?_⟩
  · intro m rows today llm st info hg hl hpool
    cases hllm : llm (new_chat info.topic info.subject info.teacher info.className st.nextChatId)
        (pyStrip (m.body.getD "")) <;>
      simp [incoming_listener, hg, hl, hpool, hllm]
  · intro m rows today llm st info c hg hl hpool
    cases hllm : llm c (pyStrip (m.body.getD "")) <;>
      simp [incoming_listener, hg, hl, hpool, hllm]
  · intro msg fetchCourse today llm st entry hmem
    unfold incoming_listener
    rcases msg with _ | m
    · simpa using hmem
    · dsimp only
      split
      · simpa using hmem
      · rcases fetchCourse with e | rows
        · simpa using hmem
        · dsimp only
          rcases hl : findLesson rows today with _ | info
          · simpa using hmem
          · dsimp only
            rcases hpool : poolFind st.chat_pool m.sender with _ | c
            · cases hllm : llm
                  (new_chat info.topic info.subject info.teacher info.className st.nextChatId)
                  (pyStrip (m.body.getD "")) <;>
                simp [hpool, hllm, List.mem_append] <;> exact Or.inl hmem
            · cases hllm : llm c (pyStrip (m.body.getD "")) <;>
                simp [hpool, hllm] <;> exact hmem
  · intro msg fetchCourse today rrun sessions
    unfold handle_message
    rcases msg with _ | m
    · rfl
    · dsimp only
      split
      · rfl
      · split
        · rfl
        · rcases fetchCourse with e | rows
          · rfl
          · dsimp only
            rcases hl : findLesson rows today with _ | info <;> simp [hl]

/-- C7 witness: concrete first and second messages from the same recipient in
`main.py` — the first creates and seeds the session, the second reuses the
identical stored object — plus the pool-monotonicity and ADK conjuncts at
concrete inputs. -/
theorem C7_session_lifecycle_witness :
    (msgHello.isGroupMsg = false ∧
      findLesson [rowJan1] "2025-01-01" = some (rowInfo rowJan1) ∧
      poolFind (MainState.mk [] 0).chat_pool msgHello.sender = none ∧
      (incoming_listener (some msgHello) (.ok [rowJan1]) "2025-01-01"
          (fun _ _ => .ok "A") (MainState.mk [] 0)).state.chat_pool =
        [] ++ [(msgHello.sender,
          new_chat (rowInfo rowJan1).topic (rowInfo rowJan1).subject (rowInfo rowJan1).teacher
            (rowInfo rowJan1).className 0)]) ∧
    (poolFind [(msgHello.sender, new_chat (some "Photosynthesis") (some "Science")
          (some "Ms. Rao") (some "7A") 0)] msgHello.sender =
        some (new_chat (some "Photosynthesis") (some "Science") (some "Ms. Rao") (some "7A") 0) ∧
      (incoming_listener (some msgHello) (.ok [rowJan1]) "2025-01-01" (fun _ _ => .ok "A")
          (MainState.mk [(msgHello.sender, new_chat (some "Photosynthesis") (some "Science")
            (some "Ms. Rao") (some "7A") 0)] 1)).usedChat =
        some (new_chat (some "Photosynthesis") (some "Science") (some "Ms. Rao") (some "7A") 0)) ∧
    (("x", new_chat none none none none 7) ∈
        (incoming_listener (some msgHello) (.ok [rowJan1]) "2025-01-01" (fun _ _ => .ok "A")
          (MainState.mk [("x", new_chat none none none none 7)] 8)).state.chat_pool) :=
  ⟨⟨rfl, rfl, rfl,
    (C7_session_lifecycle.1 msgHello [rowJan1] "2025-01-01" (fun _ _ => .ok "A")
      (MainState.mk [] 0) (rowInfo rowJan1) rfl rfl rfl).1⟩,
   ⟨rfl,
    (C7_session_lifecycle.2.1 msgHello [rowJan1] "2025-01-01" (fun _ _ => .ok "A")
      (MainState.mk [(msgHello.sender, new_chat (some "Photosynthesis") (some "Science")
        (some "Ms. Rao") (some "7A") 0)] 1) (rowInfo rowJan1)
      (new_chat (some "Photosynthesis") (some "Science") (some "Ms. Rao") (some "7A") 0)
      rfl rfl rfl).2.1⟩,
   C7_session_lifecycle.2.2.1 (some msgHello) (.ok [rowJan1]) "2025-01-01"
     (fun _ _ => .ok "A") (MainState.mk [("x", new_chat none none none none 7)] 8)
     ("x", new_chat none none none none 7) (by simp)⟩

/-- C9 (amended): the schedule lookup returns the lesson record of the FIRST
row whose schedule-date string exactly equals today's date string (the
`List.find?` characterization), or `none` when no row matches; a fetch
failure propagates as an exception out of `today_topic`; the push job and the
inbound handler treat `none` as a normal outcome (zero sends, fixed "no class
today" reply) — but the ADK variant's module-level startup caller does NOT:
when no row matches at startup it subscripts the `none` result and raises a
`TypeError`. -/
theorem C9_lookup_contract :
    (∀ rows today,
      findLesson rows today =
        (rows.find? (fun r => pyStr r.scheduleDate == today)).map rowInfo) ∧
    (∀ e today, today_topic (.error e) today = .error e) ∧
    (∀ rows today, today_topic (.ok rows) today = .ok (findLesson rows today)) ∧
    (∀ rows srows today sendOk, findLesson rows today = none →
      push_daily_summary (.ok rows) (.ok srows) today sendOk = .ok []) ∧
    (∀ (m : Message) rows today llm st, m.isGroupMsg = false → findLesson rows today = none →
      (incoming_listener (some m) (.ok rows) today llm st).outcome =
        .replied "No class today — enjoy your break 🎉") ∧
    (∀ rows today, findLesson rows today = none →
      adkStartup (.ok rows) today = .error "TypeError: NoneType object is not subscriptable") := by
  refine ⟨?_, ?_, ?_, ?_, ?_, ?_⟩
  · intro rows today
    induction rows with
    | nil => rfl
    | cons r rs ih =>
      cases hb : (pyStr r.scheduleDate == today) with
      | true => simp [findLesson, hb, List.find?_cons_of_pos _ hb]
      | false =>
        have hfind : List.find? (fun r => pyStr r.scheduleDate == today) (r :: rs) =
            List.find? (fun r => pyStr r.scheduleDate == today) rs :=
          List.find?_cons_of_neg rs (by simp [hb])
        simp [findLesson, hb, hfind, ih]
  · intro e today
    rfl
  · intro rows today
    rfl
  · intro rows srows today sendOk hl
    simp [push_daily_summary, hl]
  · intro m rows today llm st hg hl
    simp [incoming_listener, hg, hl]
  · intro rows today hl
    simp [adkStartup, today_topic, Except.map, hl]

/-- C9 witness: a sheet whose only row is dated 2025-01-02, queried on
2025-01-01: no row matches, the lookup is `none` (matching the `find?`
characterization), the push job sends nothing, the handler replies the fixed
message, and the ADK startup binding raises. -/
theorem C9_lookup_contract_witness :
    findLesson [rowJan2] "2025-01-01" =
      (([rowJan2].find? (fun r => pyStr r.scheduleDate == "2025-01-01")).map rowInfo) ∧
    findLesson [rowJan2] "2025-01-01" = none ∧
    push_daily_summary (.ok [rowJan2]) (.ok [ashaRow]) "2025-01-01" (fun _ _ => true) = .ok [] ∧
    (incoming_listener (some msgHello) (.ok [rowJan2]) "2025-01-01" (fun _ _ => .ok "A")
        (MainState.mk [] 0)).outcome = .replied "No class today — enjoy your break 🎉" ∧
    adkStartup (.ok [rowJan2]) "2025-01-01" =
      .error "TypeError: NoneType object is not subscriptable" :=
  ⟨C9_lookup_contract.1 [rowJan2] "2025-01-01",
   rfl,
   C9_lookup_contract.2.2.2.1 [rowJan2] [ashaRow] "2025-01-01" (fun _ _ => true) rfl,
   C9_lookup_contract.2.2.2.2.1 msgHello [rowJan2] "2025-01-01" (fun _ _ => .ok "A")
     (MainState.mk [] 0) rfl rfl,
   C9_lookup_contract.2.2.2.2.2 [rowJan2] "2025-01-01" rfl⟩

end AIAssistant
